import Mathlib

/-!
Shallow embedding of the Velocity demo-capture script
(`scripts/demo/capture-demos.py`).

Pure fragments of the script become Lean functions; the effectful parts
(HTTP fetches, the browser, raised exceptions, file writes) are made
explicit: fetch outcomes become inductive response types, a raised
exception becomes an `Except` error value, and the set of image files
written becomes an explicit field of the state.  Python `round` on the
(exact-in-range) float quotient of two machine integers is modelled as
round-half-to-even of the exact rational quotient, per Python's documented
rounding rule.
-/

namespace Velocity

/-- Round-half-to-even of the exact rational `num / den`, the behaviour of
Python's built-in `round` on the quotient of two nonnegative integers. -/
def pyRound (num den : Nat) : Nat :=
  let q := num / den
  let r := num % den
  if 2 * r < den then q
  else if den < 2 * r then q + 1
  else if q % 2 = 0 then q else q + 1

/-- The shrinking branch of `capture_scenario`'s resampling step
(`capture-demos.py` lines 782-790): nearest-index selection, with the
single-output-frame case pinned to the last source frame. -/
def resampleDown [Inhabited α] (framePaths : List α) (targetFrames : Nat) : List α :=
  if targetFrames = 1 then
    [(framePaths.getLast?).getD default]
  else
    (List.range targetFrames).map fun i =>
      framePaths.getD (pyRound (i * (framePaths.length - 1)) (targetFrames - 1)) default

/-- The first `if` of the resampling step (`capture-demos.py` lines
781-790): shrink by nearest-index selection when the sequence is longer
than the target.  Python's list truthiness test `if frame_paths` is
rendered as `0 < length`. -/
def shrinkPhase [Inhabited α] (framePaths : List α) (targetFrames : Nat) : List α :=
  if 0 < framePaths.length ∧ targetFrames < framePaths.length then
    resampleDown framePaths targetFrames
  else framePaths

/-- The second `if` of the resampling step (`capture-demos.py` lines
791-792): pad a nonempty, too-short sequence with copies of its last
element up to the target length. -/
def padTail [Inhabited α] (fp : List α) (targetFrames : Nat) : List α :=
  if 0 < fp.length ∧ fp.length < targetFrames then
    fp ++ List.replicate (targetFrames - fp.length) ((fp.getLast?).getD default)
  else fp

/-- The resampling step of `capture_scenario` (`capture-demos.py` lines
780-792): the shrink `if` followed by the pad `if`. -/
def resample [Inhabited α] (framePaths : List α) (targetFrames : Nat) : List α :=
  padTail (shrinkPhase framePaths targetFrames) targetFrames

/-- `write_gif` (`capture-demos.py` lines 164-178): raises when handed no
frames, otherwise encodes the frames in order at the given per-frame
duration.  The raised `RuntimeError` is the `Except.error` branch; the
encoded animation is modelled as the pair of the frame list and the
per-frame duration. -/
def write_gif (framePaths : List α) (frameMs : Nat) : Except String (List α × Nat) :=
  if framePaths.length = 0 then
    Except.error "No frames captured for GIF output"
  else
    Except.ok (framePaths, frameMs)

/-- State of the frame sink closed over by `snap` inside `capture_scenario`
(`capture-demos.py` lines 750-758).  A shot is identified by its frame
index (the script derives the file name `NNNN.png` from the index, which
is injective); `filesWritten` records the image files `page.screenshot`
has produced. -/
structure SinkState where
  framePaths : List Nat
  frameIndex : Nat
  filesWritten : List Nat
deriving DecidableEq

/-- `snap` (`capture-demos.py` lines 753-758): screenshot once, append
`max(duplication, 1)` references to the new shot, advance the index. -/
def snap (duplication : Nat) (s : SinkState) : SinkState :=
  let shot := s.frameIndex
  { framePaths := s.framePaths ++ List.replicate (max duplication 1) shot
    frameIndex := s.frameIndex + 1
    filesWritten := s.filesWritten ++ [shot] }

/-- The loop body of `stitch_gifs` (`capture-demos.py` lines 810-825).
A source is `none` when the file does not exist (the loop `continue`s,
skipping the separator append as well) and `some clip` when it exists and
decodes to the listed frames.  After appending an existing clip, when the
separator count is positive, the source is not the last one and the
accumulated frame list is nonempty, the loop appends `k` copies of the
current last accumulated frame. -/
def stitchLoop [Inhabited α] (k total : Nat) : Nat → List (Option (List α)) → List α → List α
  | _, [], frames => frames
  | i, none :: rest, frames => stitchLoop k total (i + 1) rest frames
  | i, some clip :: rest, frames =>
    stitchLoop k total (i + 1) rest
      (if 0 < k ∧ i < total - 1 ∧ 0 < (frames ++ clip).length then
         (frames ++ clip) ++ List.replicate k (((frames ++ clip).getLast?).getD default)
       else frames ++ clip)

/-- `stitch_gifs` (`capture-demos.py` lines 801-839): decode and
concatenate the existing sources with optional separator holds; when no
frame was collected, return without writing (`none`); otherwise write the
stitched animation (`some` of its frame list). -/
def stitch_gifs [Inhabited α] (sources : List (Option (List α))) (k : Nat) : Option (List α) :=
  if (stitchLoop k sources.length 0 sources []).length = 0 then none
  else some (stitchLoop k sources.length 0 sources [])

/-- Separator block appended after a non-final clip: `k` copies of the
clip's last frame. -/
def sepBlock [Inhabited α] (k : Nat) (clip : List α) : List α :=
  List.replicate k ((clip.getLast?).getD default)

/-- Concatenation of clips with a `k`-frame hold of each clip's last frame
between consecutive clips; the closed form `stitchLoop` computes when all
sources exist and decode to nonempty frame lists. -/
def joinWithSep [Inhabited α] (k : Nat) : List (List α) → List α
  | [] => []
  | [c] => c
  | c :: rest => c ++ sepBlock k c ++ joinWithSep k rest

/-- Lexicographic strict comparison of two `(plan score, node count)`
pairs, the comparison Python's `max(data, key=score)` performs on the
tuples returned by `score`. -/
def tupleLt (a b : Nat × Nat) : Prop :=
  a.1 < b.1 ∨ (a.1 = b.1 ∧ a.2 < b.2)

instance (a b : Nat × Nat) : Decidable (tupleLt a b) :=
  inferInstanceAs (Decidable (a.1 < b.1 ∨ (a.1 = b.1 ∧ a.2 < b.2)))

/-- Python's `max(data, key=score)`: fold keeping the current best,
replacing it only on a strictly greater key, so the first maximal element
wins ties. -/
def pyMax (key : α → Nat × Nat) : α → List α → α
  | best, [] => best
  | best, y :: rest => pyMax key (if tupleLt (key best) (key y) then y else best) rest

/-- One workflow entry as consumed by `resolve_workflow_route`
(`capture-demos.py` lines 108-126): `nodes` is `some n` when the `nodes`
field is a JSON list of `n` elements and `none` when absent or not a
list; `generatedPlan` / `id` are `some` when present and a string.  A
non-dict list element is modelled as `none` at the `Option WfItem` layer. -/
structure WfItem where
  nodes : Option Nat
  generatedPlan : Option String
  id : Option String
deriving DecidableEq

/-- `node_count` (`capture-demos.py` lines 108-112). -/
def node_count (item : Option WfItem) : Nat :=
  match item with
  | none => 0
  | some w =>
    match w.nodes with
    | some n => n
    | none => 0

/-- Truthiness of Python's `plan.strip()`: the string keeps a character
after stripping whitespace iff it contains a non-whitespace character
(stated over the string's character list). -/
def planNonBlank (s : String) : Bool :=
  s.data.any fun c => !c.isWhitespace

/-- `generated_plan_score` (`capture-demos.py` lines 114-118). -/
def generated_plan_score (item : Option WfItem) : Nat :=
  match item with
  | none => 0
  | some w =>
    match w.generatedPlan with
    | some plan => if planNonBlank plan then 1 else 0
    | none => 0

/-- `score` (`capture-demos.py` lines 120-121). -/
def wfScore (item : Option WfItem) : Nat × Nat :=
  (generated_plan_score item, node_count item)

/-- Outcome of the workflow-list fetch in `resolve_workflow_route`:
the request or JSON decode raised, the decoded data was not a list, or it
was a list of items. -/
inductive ApiResponse (α : Type) where
  | raised : ApiResponse α
  | nonList : ApiResponse α
  | list (items : List α) : ApiResponse α

/-- The hardcoded fallback route of `resolve_workflow_route`
(`capture-demos.py` line 98). -/
def wfFallback : String := "/workflows/wf_demo_claude_release"

/-- Route derived from the selected entry (`capture-demos.py` lines
124-127): use its `id` when it is a nonempty string, else the fallback. -/
def routeOf (best : Option WfItem) : String :=
  match best with
  | some w =>
    match w.id with
    | some wid => if wid ≠ "" then "/workflows/" ++ wid else wfFallback
    | none => wfFallback
  | none => wfFallback

/-- `resolve_workflow_route` (`capture-demos.py` lines 94-127) after the
fetch outcome is made explicit: fallback on a raised fetch, non-list data
or an empty list; otherwise the route of the `max`-by-score entry. -/
def resolve_workflow_route (resp : ApiResponse (Option WfItem)) : String :=
  match resp with
  | ApiResponse.raised => wfFallback
  | ApiResponse.nonList => wfFallback
  | ApiResponse.list [] => wfFallback
  | ApiResponse.list (x :: rest) => routeOf (pyMax wfScore x rest)

/-- Outcome of the sessions fetch in `resolve_session_ids`: the request or
decode raised, the data had no `sessions` list (not a dict, key missing or
not a list), or the list of rows.  A row is `none` when not a dict, and
otherwise carries its `id` field when that field is a string. -/
inductive SessionsFetch where
  | raised : SessionsFetch
  | badShape : SessionsFetch
  | rows (rows : List (Option (Option String))) : SessionsFetch

/-- The collection loop of `resolve_session_ids` (`capture-demos.py` lines
152-161): skip non-dict rows (`continue`, which also skips the break
check), append nonempty string ids, stop once `count` ids are collected. -/
def collectIds (count : Nat) : List (Option (Option String)) → List String → List String
  | [], ids => ids
  | none :: rest, ids => collectIds count rest ids
  | some field :: rest, ids =>
    let ids2 :=
      match field with
      | some sid => if sid ≠ "" then ids ++ [sid] else ids
      | none => ids
    if count ≤ ids2.length then ids2 else collectIds count rest ids2

/-- `resolve_session_ids` (`capture-demos.py` lines 130-161) after the
fetch outcome is made explicit. -/
def resolve_session_ids (resp : SessionsFetch) (count : Nat) : List String :=
  match resp with
  | SessionsFetch.raised => []
  | SessionsFetch.badShape => []
  | SessionsFetch.rows rs => collectIds count rs []

/-- Exceptions relevant to `capture_scenario`'s try block: the browser
automation timeout, the `RuntimeError` the except clause raises, and any
other exception. -/
inductive Exc where
  | playwrightTimeout (msg : String) : Exc
  | runtimeError (msg : String) : Exc
  | otherError (msg : String) : Exc
deriving DecidableEq

/-- Terminal cleanup performed by `capture_scenario`'s finally clause. -/
structure Cleanup where
  pageClosed : Bool
  contextClosed : Bool
deriving DecidableEq

/-- The except clause of `capture_scenario` (`capture-demos.py` lines
770-771): a timeout is re-raised as a `RuntimeError` naming the scenario
key; everything else propagates unchanged. -/
def scenarioHandle (key : String) : Exc → Exc
  | Exc.playwrightTimeout _ =>
      Exc.runtimeError ("Scenario " ++ key ++ " timed out")
  | e => e

/-- The try/except/finally of `capture_scenario` (`capture-demos.py` lines
761-776) over an abstract body outcome: the result after the except
clause, paired with the cleanup the finally clause always performs.
The quoting punctuation of the message around the key is elided; the
modelled property is that the key is embedded in the message. -/
def capture_scenario_guard (key : String) (body : Except Exc Unit) :
    Except Exc Unit × Cleanup :=
  (match body with
   | Except.ok _ => Except.ok ()
   | Except.error e => Except.error (scenarioHandle key e),
   { pageClosed := true, contextClosed := true })

lemma getD_zero_of_pos [Inhabited α] (l : List α) (h : 0 < l.length) :
    l.head? = some (l.getD 0 default) := by
  rw [List.head?_eq_getElem?, List.getD_eq_getElem?_getD, List.getElem?_eq_getElem h]
  rfl

lemma getLast?_eq_getD [Inhabited α] (l : List α) (h : 0 < l.length) :
    l.getLast? = some (l.getD (l.length - 1) default) := by
  rw [List.getLast?_eq_getElem?, List.getD_eq_getElem?_getD,
    List.getElem?_eq_getElem (show l.length - 1 < l.length by omega)]
  rfl

lemma getLast?_eq_some_getD [Inhabited α] (l : List α) (h : 0 < l.length) :
    l.getLast? = some ((l.getLast?).getD default) := by
  rw [getLast?_eq_getD l h]
  rfl

lemma pyRound_zero (den : Nat) (h : 0 < den) : pyRound 0 den = 0 := by
  unfold pyRound
  simp [Nat.zero_div, Nat.zero_mod, h]

lemma pyRound_mul (den a : Nat) (h : 0 < den) : pyRound (den * a) den = a := by
  unfold pyRound
  rw [Nat.mul_div_cancel_left a h, Nat.mul_mod_right den a]
  simp [h]

lemma resampleDown_length [Inhabited α] (l : List α) (t : Nat) (_ht : 1 ≤ t) :
    (resampleDown l t).length = t := by
  unfold resampleDown
  by_cases h1 : t = 1
  · rw [if_pos h1]; simp [h1]
  · rw [if_neg h1]; simp

lemma resampleDown_head [Inhabited α] (l : List α) (t : Nat)
    (hn : 0 < l.length) (ht : 2 ≤ t) :
    (resampleDown l t).head? = l.head? := by
  unfold resampleDown
  rw [if_neg (show ¬ t = 1 by omega)]
  rw [List.head?_eq_getElem?, List.getElem?_map,
    List.getElem?_range (show 0 < t by omega)]
  show some (l.getD (pyRound (0 * (l.length - 1)) (t - 1)) default) = l.head?
  rw [Nat.zero_mul, pyRound_zero (t - 1) (by omega)]
  exact (getD_zero_of_pos l hn).symm

lemma resampleDown_getLast [Inhabited α] (l : List α) (t : Nat)
    (hn : 0 < l.length) (ht : 2 ≤ t) :
    (resampleDown l t).getLast? = l.getLast? := by
  unfold resampleDown
  rw [if_neg (show ¬ t = 1 by omega)]
  rw [List.getLast?_eq_getElem?]
  have hlen : ((List.range t).map fun i =>
      l.getD (pyRound (i * (l.length - 1)) (t - 1)) default).length = t := by
    simp
  rw [hlen, List.getElem?_map, List.getElem?_range (show t - 1 < t by omega)]
  show some (l.getD (pyRound ((t - 1) * (l.length - 1)) (t - 1)) default) = l.getLast?
  rw [pyRound_mul (t - 1) (l.length - 1) (by omega)]
  exact (getLast?_eq_getD l hn).symm

/-- C1: for every frame sequence of length at least one and every target
length at least one, the resampling step of `capture_scenario` produces a
sequence of exactly the target length. -/
theorem resample_length [Inhabited α] (frames : List α) (t : Nat)
    (hn : 0 < frames.length) (ht : 1 ≤ t) :
    (resample frames t).length = t := by
  rcases Nat.lt_trichotomy t frames.length with hlt | heq | hgt
  · have hs : shrinkPhase frames t = resampleDown frames t := by
      unfold shrinkPhase; exact if_pos ⟨hn, hlt⟩
    have hd := resampleDown_length frames t ht
    unfold resample padTail
    rw [hs, if_neg]
    · exact hd
    · rintro ⟨-, hc⟩
      rw [hd] at hc
      exact absurd hc (lt_irrefl t)
  · have hs : shrinkPhase frames t = frames := by
      unfold shrinkPhase; apply if_neg; rintro ⟨-, hc⟩; omega
    unfold resample padTail
    rw [hs, if_neg]
    · omega
    · rintro ⟨-, hc⟩; omega
  · have hs : shrinkPhase frames t = frames := by
      unfold shrinkPhase; apply if_neg; rintro ⟨-, hc⟩; omega
    unfold resample padTail
    rw [hs, if_pos ⟨hn, hgt⟩]
    simp
    omega

/-- Witness for C1 at a concrete input. -/
theorem resample_length_witness : (resample ([5, 6, 7] : List Nat) 9).length = 9 :=
  resample_length [5, 6, 7] 9 (by decide) (by decide)

/-- C2 counterexample: at input `[0, 1]` with target 1 (so `1 ≤ t < n`),
the resampled sequence starts with the input's last element, not its
first, refuting first-element preservation "including the case t == 1". -/
theorem resample_c2_counterexample :
    1 ≤ 1 ∧ 1 < ([0, 1] : List Nat).length ∧
    (resample ([0, 1] : List Nat) 1).head? ≠ ([0, 1] : List Nat).head? := by
  decide

/-- C2 amended: for `1 ≤ t < n`, resampling down preserves the input's
last element as the output's last element; the first element is preserved
whenever `2 ≤ t`; in the `t == 1` case the single output frame is the
input's last frame. -/
theorem resample_down_first_last [Inhabited α] (frames : List α) (t : Nat)
    (h1 : 1 ≤ t) (h2 : t < frames.length) :
    (resample frames t).getLast? = frames.getLast? ∧
    (2 ≤ t → (resample frames t).head? = frames.head?) ∧
    (t = 1 → resample frames t = [(frames.getLast?).getD default]) := by
  have hn : 0 < frames.length := by omega
  have hs : shrinkPhase frames t = resampleDown frames t := by
    unfold shrinkPhase; exact if_pos ⟨hn, h2⟩
  have hlen := resampleDown_length frames t h1
  have hres : resample frames t = resampleDown frames t := by
    unfold resample padTail
    rw [hs]
    apply if_neg
    rintro ⟨-, hc⟩
    rw [hlen] at hc
    exact absurd hc (lt_irrefl t)
  by_cases ht1 : t = 1
  · subst ht1
    have hd : resampleDown frames 1 = [(frames.getLast?).getD default] := by
      unfold resampleDown; rw [if_pos rfl]
    refine ⟨?_, fun hc => absurd hc (by omega), fun _ => hres.trans hd⟩
    rw [hres, hd]
    exact (getLast?_eq_some_getD frames hn).symm
  · have ht2 : 2 ≤ t := by omega
    refine ⟨?_, fun _ => ?_, fun hc => absurd hc ht1⟩
    · rw [hres]; exact resampleDown_getLast frames t hn ht2
    · rw [hres]; exact resampleDown_head frames t hn ht2

/-- Witness for the amended C2 at a concrete input. -/
theorem resample_down_first_last_witness :
    (resample ([10, 20, 30] : List Nat) 2).getLast? = some 30 ∧
    (resample ([10, 20, 30] : List Nat) 2).head? = some 10 := by
  have h := resample_down_first_last ([10, 20, 30] : List Nat) 2 (by decide) (by decide)
  exact ⟨h.1.trans (by decide), (h.2.1 (by decide)).trans (by decide)⟩

/-- C3: for a frame sequence of length at least one and a larger target
length, resampling up returns the input followed by exactly `t - n`
copies of the input's last element and nothing else. -/
theorem resample_up_pads [Inhabited α] (frames : List α) (t : Nat)
    (hn : 0 < frames.length) (ht : frames.length < t) :
    resample frames t =
      frames ++ List.replicate (t - frames.length) ((frames.getLast?).getD default) := by
  have hs : shrinkPhase frames t = frames := by
    unfold shrinkPhase; apply if_neg; rintro ⟨-, hc⟩; omega
  unfold resample padTail
  rw [hs, if_pos ⟨hn, ht⟩]

/-- Witness for C3 at a concrete input. -/
theorem resample_up_pads_witness : resample ([1, 2] : List Nat) 4 = [1, 2, 2, 2] :=
  (resample_up_pads [1, 2] 4 (by decide) (by decide)).trans (by decide)

/-- C4: resampling an empty frame sequence yields the empty sequence for
every target length, and the subsequent `write_gif` call raises; no
animation is produced from zero frames. -/
theorem resample_empty_write_fails (t frameMs : Nat) :
    resample ([] : List Nat) t = [] ∧
    write_gif (resample ([] : List Nat) t) frameMs =
      Except.error "No frames captured for GIF output" := by
  have h : resample ([] : List Nat) t = [] := by
    unfold resample padTail shrinkPhase
    simp
  exact ⟨h, by rw [h]; rfl⟩

lemma stitchLoop_cons_some [Inhabited α] (k total i : Nat) (clip : List α)
    (rest : List (Option (List α))) (frames : List α) :
    stitchLoop k total i (some clip :: rest) frames =
      stitchLoop k total (i + 1) rest
        (if 0 < k ∧ i < total - 1 ∧ 0 < (frames ++ clip).length then
           (frames ++ clip) ++ List.replicate k (((frames ++ clip).getLast?).getD default)
         else frames ++ clip) := rfl

lemma stitchLoop_map_some [Inhabited α] (k : Nat) (clips : List (List α)) :
    ∀ (i total : Nat) (acc : List α), (∀ c ∈ clips, 0 < c.length) →
      i + clips.length = total →
      stitchLoop k total i (clips.map some) acc = acc ++ joinWithSep k clips := by
  induction clips with
  | nil =>
    intro i total acc _ _
    simp [stitchLoop, joinWithSep]
  | cons c rest ih =>
    intro i total acc h htot
    have hc : 0 < c.length := h c (List.mem_cons_self c rest)
    have hc2 : c ≠ [] := List.length_pos.mp hc
    have hfr : 0 < (acc ++ c).length := by simp; omega
    cases rest with
    | nil =>
      have hi : ¬ i < total - 1 := by simp at htot; omega
      simp only [List.map_cons, List.map_nil, stitchLoop]
      rw [if_neg (by rintro ⟨-, hlt, -⟩; exact hi hlt)]
      simp [joinWithSep]
    | cons r rs =>
      have hi : i < total - 1 := by simp at htot; omega
      have hrest : ∀ x ∈ r :: rs, 0 < x.length :=
        fun x hx => h x (List.mem_cons_of_mem c hx)
      have harith : i + 1 + (r :: rs).length = total := by simp at htot ⊢; omega
      by_cases hk : 0 < k
      · rw [List.map_cons, stitchLoop_cons_some, if_pos ⟨hk, hi, hfr⟩,
          List.getLast?_append_of_ne_nil acc hc2,
          ih (i + 1) total _ hrest harith]
        simp [joinWithSep, sepBlock, List.append_assoc]
      · have hk0 : k = 0 := by omega
        subst hk0
        rw [List.map_cons, stitchLoop_cons_some,
          if_neg (by rintro ⟨hc0, -, -⟩; exact absurd hc0 hk),
          ih (i + 1) total _ hrest harith]
        simp [joinWithSep, sepBlock, List.append_assoc]

lemma joinWithSep_length [Inhabited α] (k : Nat) (clips : List (List α)) :
    (joinWithSep k clips).length =
      (clips.map List.length).sum + k * (clips.length - 1) := by
  induction clips with
  | nil => simp [joinWithSep]
  | cons c rest ih =>
    cases rest with
    | nil => simp [joinWithSep]
    | cons r rs =>
      simp only [joinWithSep, sepBlock, List.length_append, List.length_replicate]
      rw [ih]
      simp only [List.map_cons, List.sum_cons, List.length_cons, Nat.add_sub_cancel]
      rw [Nat.mul_succ]
      omega

lemma joinWithSep_ne_nil [Inhabited α] (k : Nat) (c : List α) (rest : List (List α))
    (hc : 0 < c.length) : 0 < (joinWithSep k (c :: rest)).length := by
  cases rest with
  | nil => simpa [joinWithSep] using hc
  | cons r rs => simp [joinWithSep]; omega

/-- C5: stitching `m` existing clips that decode to nonempty frame lists
produces exactly the clips in order with `k` copies of each non-final
clip's last frame inserted after it, hence
`sum(clip_frames) + k*(m-1)` frames in total (and exactly
`sum(clip_frames)` when `k = 0`). -/
theorem stitch_gifs_spec [Inhabited α] (clips : List (List α)) (k : Nat)
    (hne : clips ≠ []) (h : ∀ c ∈ clips, 0 < c.length) :
    stitch_gifs (clips.map some) k = some (joinWithSep k clips) ∧
    (joinWithSep k clips).length =
      (clips.map List.length).sum + k * (clips.length - 1) := by
  constructor
  · have hl : stitchLoop k (clips.map some).length 0 (clips.map some) [] =
        joinWithSep k clips := by
      have := stitchLoop_map_some k clips 0 (clips.map some).length [] h (by simp)
      simpa using this
    obtain ⟨c, rest, rfl⟩ := List.exists_cons_of_ne_nil hne
    have hpos := joinWithSep_ne_nil k c rest (h c (List.mem_cons_self c rest))
    unfold stitch_gifs
    rw [hl, if_neg (by omega)]
  · exact joinWithSep_length k clips

/-- Witness for C5 at a concrete input: two clips of 2 and 1 frames with
2 separator hold frames give 2 + 1 + 2*1 = 5 frames, the separator being
copies of the first clip's last frame. -/
theorem stitch_gifs_spec_witness :
    stitch_gifs ([some [1, 2], some [3]] : List (Option (List Nat))) 2 =
      some [1, 2, 2, 2, 3] := by
  have h := stitch_gifs_spec ([[1, 2], [3]] : List (List Nat)) 2 (by decide) (by decide)
  exact h.1.trans (by decide)

lemma stitchLoop_degenerate [Inhabited α] (k total : Nat)
    (sources : List (Option (List α))) :
    ∀ i, (∀ s ∈ sources, s = none ∨ s = some []) →
      stitchLoop k total i sources [] = [] := by
  induction sources with
  | nil => intro i _; rfl
  | cons s rest ih =>
    intro i h
    have hrest : ∀ x ∈ rest, x = none ∨ x = some [] :=
      fun x hx => h x (List.mem_cons_of_mem s hx)
    rcases h s (List.mem_cons_self s rest) with rfl | rfl
    · exact ih (i + 1) hrest
    · simp only [stitchLoop]
      rw [if_neg (by rintro ⟨-, -, hc⟩; simp at hc)]
      exact ih (i + 1) hrest

/-- C10: when no source file exists (or every existing source contributes
zero frames), `stitch_gifs` returns without writing any output (`none`)
and without raising, in contrast to `write_gif`, which raises on an empty
frame list. -/
theorem stitch_gifs_empty_noop [Inhabited α] (sources : List (Option (List α)))
    (k frameMs : Nat) (h : ∀ s ∈ sources, s = none ∨ s = some []) :
    stitch_gifs sources k = none ∧
    write_gif ([] : List α) frameMs =
      Except.error "No frames captured for GIF output" := by
  constructor
  · unfold stitch_gifs
    rw [stitchLoop_degenerate k sources.length sources 0 h]
    rfl
  · rfl

/-- Witness for C10 at a concrete input. -/
theorem stitch_gifs_empty_noop_witness :
    stitch_gifs ([none, some []] : List (Option (List Nat))) 3 = none ∧
    write_gif ([] : List Nat) 150 =
      Except.error "No frames captured for GIF output" :=
  stitch_gifs_empty_noop [none, some []] 3 150 (by decide)

lemma tupleLt_irrefl (a : Nat × Nat) : ¬ tupleLt a a := by
  unfold tupleLt
  omega

lemma tupleLt_trans {a b c : Nat × Nat} :
    tupleLt a b → tupleLt b c → tupleLt a c := by
  unfold tupleLt
  omega

lemma tupleLt_of_lt_of_not_lt {a b c : Nat × Nat} :
    tupleLt a b → ¬ tupleLt c b → tupleLt a c := by
  unfold tupleLt
  omega

lemma pyMax_cons (key : α → Nat × Nat) (best y : α) (rest : List α) :
    pyMax key best (y :: rest) =
      pyMax key (if tupleLt (key best) (key y) then y else best) rest := rfl

lemma pyMax_mem (key : α → Nat × Nat) :
    ∀ (l : List α) (best : α), pyMax key best l ∈ best :: l := by
  intro l
  induction l with
  | nil => intro best; simp [pyMax]
  | cons y rest ih =>
    intro best
    by_cases h : tupleLt (key best) (key y)
    · rw [pyMax_cons, if_pos h]
      exact List.mem_cons_of_mem best (ih y)
    · rw [pyMax_cons, if_neg h]
      rcases List.mem_cons.mp (ih best) with h1 | h1
      · rw [h1]
        exact List.mem_cons_self best (y :: rest)
      · exact List.mem_cons_of_mem _ (List.mem_cons_of_mem _ h1)

lemma pyMax_not_lt (key : α → Nat × Nat) :
    ∀ (l : List α) (best z : α), z ∈ best :: l →
      ¬ tupleLt (key (pyMax key best l)) (key z) := by
  intro l
  induction l with
  | nil =>
    intro best z hz
    rcases List.mem_cons.mp hz with h0 | h0
    · rw [h0]
      exact tupleLt_irrefl (key best)
    · exact absurd h0 (List.not_mem_nil z)
  | cons y rest ih =>
    intro best z hz
    by_cases h : tupleLt (key best) (key y)
    · rw [pyMax_cons, if_pos h]
      rcases List.mem_cons.mp hz with h0 | hz2
      · intro hcon
        rw [h0] at hcon
        exact ih y y (List.mem_cons_self y rest) (tupleLt_trans hcon h)
      · rcases List.mem_cons.mp hz2 with h1 | hz3
        · rw [h1]
          exact ih y y (List.mem_cons_self y rest)
        · exact ih y z (List.mem_cons_of_mem y hz3)
    · rw [pyMax_cons, if_neg h]
      rcases List.mem_cons.mp hz with h0 | hz2
      · rw [h0]
        exact ih best best (List.mem_cons_self best rest)
      · rcases List.mem_cons.mp hz2 with h1 | hz3
        · intro hcon
          rw [h1] at hcon
          exact ih best best (List.mem_cons_self best rest)
            (tupleLt_of_lt_of_not_lt hcon h)
        · exact ih best z (List.mem_cons_of_mem best hz3)

/-- C6: on a nonempty workflow list, `resolve_workflow_route` selects an
entry of the list that is maximal for the lexicographic order on
`(has nonempty generated plan, node count)` pairs (Python's `max` keeps
the first maximal entry) and returns the route derived from it. -/
theorem resolve_workflow_route_selects (x : Option WfItem)
    (rest : List (Option WfItem)) :
    pyMax wfScore x rest ∈ x :: rest ∧
    (∀ y ∈ x :: rest, ¬ tupleLt (wfScore (pyMax wfScore x rest)) (wfScore y)) ∧
    resolve_workflow_route (ApiResponse.list (x :: rest)) =
      routeOf (pyMax wfScore x rest) :=
  ⟨pyMax_mem wfScore rest x, fun y hy => pyMax_not_lt wfScore rest x y hy, rfl⟩

/-- Witness for C6: an entry with a nonempty generated plan and 2 nodes is
chosen over an entry with 10 nodes and no plan. -/
theorem resolve_workflow_route_selects_witness :
    resolve_workflow_route (ApiResponse.list
      [some ⟨some 2, some "plan the release", some "wf-plan"⟩,
       some ⟨some 10, none, some "wf-big"⟩]) = "/workflows/wf-plan" := by
  have h := resolve_workflow_route_selects
    (some ⟨some 2, some "plan the release", some "wf-plan"⟩)
    [some ⟨some 10, none, some "wf-big"⟩]
  exact h.2.2.trans (by decide)

/-- C7: on a raised fetch or unusable response shape,
`resolve_workflow_route` returns the fixed fallback route and
`resolve_session_ids` returns the empty list; both functions are total on
every fetch outcome, so no exception escapes either. -/
theorem discovery_failure_fallback (count : Nat) :
    resolve_workflow_route ApiResponse.raised = "/workflows/wf_demo_claude_release" ∧
    resolve_workflow_route ApiResponse.nonList = "/workflows/wf_demo_claude_release" ∧
    resolve_workflow_route (ApiResponse.list []) = "/workflows/wf_demo_claude_release" ∧
    resolve_session_ids SessionsFetch.raised count = [] ∧
    resolve_session_ids SessionsFetch.badShape count = [] :=
  ⟨rfl, rfl, rfl, rfl, rfl⟩

/-- C8: one `snap` call with duplication `d ≥ 1` appends exactly `d`
references to the one newly captured shot, records exactly one new image
file (new: under the invariant that the files written so far are those of
the previous indices, the shot's path was not written before), and
advances the frame index by exactly 1. -/
theorem snap_spec (d : Nat) (s : SinkState) (hd : 1 ≤ d) :
    (snap d s).framePaths = s.framePaths ++ List.replicate d s.frameIndex ∧
    (snap d s).frameIndex = s.frameIndex + 1 ∧
    (snap d s).filesWritten = s.filesWritten ++ [s.frameIndex] ∧
    (s.filesWritten = List.range s.frameIndex → s.frameIndex ∉ s.filesWritten) := by
  refine ⟨?_, rfl, rfl, ?_⟩
  · show s.framePaths ++ List.replicate (max d 1) s.frameIndex = _
    rw [Nat.max_eq_left hd]
  · intro h
    rw [h]
    simp [List.mem_range]

/-- Witness for C8 at a concrete input. -/
theorem snap_spec_witness :
    (snap 3 ⟨[], 0, []⟩).framePaths = List.replicate 3 0 ∧
    (snap 3 ⟨[], 0, []⟩).frameIndex = 1 := by
  have h := snap_spec 3 ⟨[], 0, []⟩ (by decide)
  exact ⟨h.1.trans (by decide), h.2.1⟩

/-- C9: a browser-automation timeout raised in the scenario body is
re-raised by `capture_scenario` as a `RuntimeError` whose message embeds
the scenario key; every other exception propagates unchanged; and the
finally clause closes the page and the browsing context in every case. -/
theorem capture_scenario_guard_spec (key : String) (body : Except Exc Unit) :
    (∀ m, body = Except.error (Exc.playwrightTimeout m) →
      ∃ pre post, (capture_scenario_guard key body).1 =
        Except.error (Exc.runtimeError (pre ++ key ++ post))) ∧
    (∀ e, body = Except.error e → (∀ m, e ≠ Exc.playwrightTimeout m) →
      (capture_scenario_guard key body).1 = Except.error e) ∧
    (capture_scenario_guard key body).2.pageClosed = true ∧
    (capture_scenario_guard key body).2.contextClosed = true := by
  refine ⟨?_, ?_, rfl, rfl⟩
  · intro m hm
    subst hm
    exact ⟨"Scenario ", " timed out", rfl⟩
  · intro e he hne
    subst he
    show Except.error (scenarioHandle key e) = Except.error e
    cases e with
    | playwrightTimeout m => exact absurd rfl (hne m)
    | runtimeError m => rfl
    | otherError m => rfl

/-- Witness for C9 at a concrete scenario key and timeout. -/
theorem capture_scenario_guard_spec_witness :
    (∃ pre post,
      (capture_scenario_guard "routing-demo"
        (Except.error (Exc.playwrightTimeout "selector wait"))).1 =
        Except.error (Exc.runtimeError (pre ++ "routing-demo" ++ post))) ∧
    (capture_scenario_guard "routing-demo"
      (Except.error (Exc.playwrightTimeout "selector wait"))).2.pageClosed = true := by
  have h := capture_scenario_guard_spec "routing-demo"
    (Except.error (Exc.playwrightTimeout "selector wait"))
  exact ⟨h.1 "selector wait" rfl, h.2.2.1⟩

end Velocity
